import Mathlib

/-!
Shallow embedding of the LEGO robotic-arm control program (src/main.c) and
proofs about its periodic activities.

Each periodic activity of the C program is a thread whose body is a loop
`while (!is_close_pressed()) { <tick body>; clock_nanosleep(...); }`.
We embed one iteration of each loop body as a pure Lean function
(`*_tick`) from the pre-state to the post-state together with the ordered
list of hardware/shared-state actions (`Ev`) the iteration performs.  The
`*_step` functions add the loop guard: they return `none` when the close
flag is observed true (the loop exits and the activity performs nothing).

Blocking inner waits (the `usleep(SUSPENSION_TIME)` settle delay followed
by polling `ev3_motor_state` until the RUNNING bit clears) are summarized
by a single `waitMotorStopped` event; no hardware command is issued inside
those polling loops, so this abstraction is faithful for every property
stated below.

The C code discards the results of every ev3 device call inside the tick
bodies (only `clock_nanosleep` is wrapped in the `CHK` macro).  To make
that observable, each tick that the specification's failure-semantics
section talks about takes a `_devFail` argument standing for "some device
operation of this tick failed"; the argument is unused, exactly because
the C code never inspects those results.
-/

namespace RoboticArm

/-! ### Numeric constants (from the #define block of main.c, lines 22-92) -/

def FULL_SPEED_LARGE_MOTOR : Int := 900

def FULL_SPEED_MEDIUM_MOTOR : Int := 1200

def SUSPENSION_TIME : Nat := 2000

def CHECK_STATE_TIME : Nat := 1000

def ROTATION_POWER : Int := 30

def ELEVATION_UP_POWER : Int := -30

def ELEVATION_DOWN_POWER : Int := 20

def CLAW_POWER : Int := 40

def ROTATION_INIT_UNITS : Int := -350

def ELEVATION_INIT_UNITS : Int := 100

def CLAW_INIT_UNITS : Int := 90

def TOUCH_SENSOR_ACTIVE : Int := 1

def REFLECTION_LIMIT : Int := 30

def STEP_ROTATION_SPEED : Int := 40

def STEP_ELEVATION_SPEED : Int := 20

def STEP_CLAW_SPEED : Int := 40

def MOTOR_LIMIT : Int := 9

def TOP_BOTTOM_POS : Int := 200

def TOP_LEFT_POS : Int := -400

def CLAW_CLOSE_TIME : Nat := 500000

/-! ### Enumerations (from the typedef block of main.c, lines 94-116) -/

/-- Stop modes, `stop_mode` in main.c. -/
inductive stop_mode where
  | COAST | BRAKE | HOLD
deriving DecidableEq

/-- Motor commands, `commands` in main.c; `COMMANDS_STRING` maps them to the
device-layer names run-forever, run-to-abs-pos, run-to-rel-pos, run-timed,
run-direct, stop, reset. -/
inductive commands where
  | RUN_FOREVER | RUN_ABS_POS | RUN_REL_POS | RUN_TIMED | RUN_DIRECT | STOP | RESET
deriving DecidableEq

/-- Rotation actions, `actions_rotation` in main.c. -/
inductive actions_rotation where
  | ROTATE_RIGHT | ROTATE_LEFT | ROTATE_STOP
deriving DecidableEq

/-- Elevation actions, `actions_elevation` in main.c. -/
inductive actions_elevation where
  | RISE | LOWER | ELEVATE_STOP
deriving DecidableEq

/-- Claw actions, `actions_claw` in main.c. -/
inductive actions_claw where
  | ACTIVE | INACTIVE
deriving DecidableEq

/-- Color sensor modes, `color_command` in main.c. -/
inductive color_command where
  | COL_REFLECT | COL_AMBIENT | COL_COLOR
deriving DecidableEq

/-- The three motors of the arm (ports C, B, A of main.c lines 22-25). -/
inductive MotorId where
  | rotationMotor | elevationMotor | clawMotor
deriving DecidableEq

/-- The two sensors (ports 1 and 2 of main.c lines 27-29). -/
inductive SensorId where
  | colorSensor | touchSensor
deriving DecidableEq

/-- LED sides (LEFT_LED / RIGHT_LED of ev3c). -/
inductive LedSide where
  | LEFT_LED | RIGHT_LED
deriving DecidableEq

/-- LED color channels (RED_LED / GREEN_LED of ev3c). -/
inductive LedColor where
  | RED_LED | GREEN_LED
deriving DecidableEq

/-! ### Observable actions of one loop iteration -/

/-- One observable action performed by an activity.  Lock/unlock and write
events record every mutex acquisition and every write to a shared
observable; the `set.../command...` events record every device call.
`waitMotorStopped m` summarizes `usleep(SUSPENSION_TIME)` followed by the
poll loop `while (ev3_motor_state(m) & MOTOR_RUNNING) usleep(CHECK_STATE_TIME);`
(no device command is issued inside the loop).  `waitSensorLimit s` and
`waitMotorStalled m` likewise summarize the calibration polling loops of
the initializers, which only read the sensor or the motor state bit. -/
inductive Ev where
  | lockIntent | unlockIntent
  | lockTop | unlockTop
  | lockClockwise | unlockClockwise
  | lockClose | unlockClose
  | lockCorrection | unlockCorrection
  | lockClawUsed | unlockClawUsed
  | writeRotationIntent (a : actions_rotation)
  | writeElevationIntent (a : actions_elevation)
  | writeClawIntent (a : actions_claw)
  | writeTopLimit (b : Bool)
  | writeClockwiseLimit (b : Bool)
  | writeClose (b : Bool)
  | writeCorrection (b : Bool)
  | writeClawUsed (b : Bool)
  | setDutyCycleSp (m : MotorId) (v : Int)
  | setPositionSp (m : MotorId) (v : Int)
  | setSpeedSp (m : MotorId) (v : Int)
  | setPosition (m : MotorId) (v : Int)
  | setStopAction (m : MotorId) (s : stop_mode)
  | commandMotor (m : MotorId) (c : commands)
  | waitMotorStopped (m : MotorId)
  | waitMotorStalled (m : MotorId)
  | waitSensorLimit (s : SensorId)
  | usleepEv (usec : Nat)
  | updateSensor (s : SensorId)
  | resetMotor (m : MotorId)
  | openMotor (m : MotorId)
  | openSensor (s : SensorId)
  | modeSensor (s : SensorId) (c : color_command)
  | initButton | initLed | initLcd
  | setLed (side : LedSide) (chan : LedColor) (v : Nat)
  | clearLcd
  | textLcdTitle (x y : Nat)
  | circleLcd (x y r color : Nat)
  | circleLcdOut (x y r color : Nat)
  | textLcdTime (x y hour minute second : Nat)
deriving DecidableEq

/-! ### Shared observables

main.c holds them in six global structs, each bundling the value with its
own mutex: `new_motors_status` (the Intent triple), `top_limit`,
`clockwise_limit`, `close_condition`, `correction` and `claw_used`.  We
bundle the six values in one record; the mutex acquisitions appear as
events in the traces. -/

structure Shared where
  rotation : actions_rotation
  elevation : actions_elevation
  claw : actions_claw
  top_limit_reached : Bool
  clockwise_limit_reached : Bool
  close : Bool
  correction_in_progress : Bool
  claw_used_status : Bool
deriving DecidableEq

/-- The observables' initial values: main.c lines 578-582 set the Intent
triple and `claw_used.status`; the remaining global flags are
zero-initialized C statics, i.e. false. -/
def initialShared : Shared :=
  { rotation := actions_rotation.ROTATE_STOP
    elevation := actions_elevation.ELEVATE_STOP
    claw := actions_claw.INACTIVE
    top_limit_reached := false
    clockwise_limit_reached := false
    close := false
    correction_in_progress := false
    claw_used_status := false }

/-! ### Rotation motor controller (main.c lines 909-987) -/

/-- One iteration of the `rotation_motor_controller` loop body
(main.c lines 919-984).  Inputs: `rotation_actual` (the local
`rotation_actual` variable), the shared observables, and `position`, the
value `ev3_get_position(rotation_motor)` would return this tick.
Output: the new `rotation_actual`, the new shared state, and the ordered
actions performed.  `_devFail` stands for a failing device operation in
this tick; it is unused because the C code discards every device call's
result. -/
def rotation_motor_controller_tick (_devFail : Bool) (rotation_actual : actions_rotation)
    (sh : Shared) (position : Int) :
    actions_rotation × Shared × List Ev :=
  -- lines 920-922: snapshot of the Intent rotation field under its mutex
  let rotation_next := sh.rotation
  if sh.clockwise_limit_reached then
    -- lines 924-946: Recovery-Relative after the touch (clockwise) limit
    (actions_rotation.ROTATE_STOP,
     { sh with clockwise_limit_reached := false, correction_in_progress := false },
     [Ev.lockIntent, Ev.unlockIntent,
      Ev.lockCorrection, Ev.writeCorrection true, Ev.unlockCorrection,
      Ev.setPositionSp MotorId.rotationMotor ROTATION_INIT_UNITS,
      Ev.commandMotor MotorId.rotationMotor commands.RUN_REL_POS,
      Ev.waitMotorStopped MotorId.rotationMotor,
      Ev.lockClockwise, Ev.writeClockwiseLimit false, Ev.unlockClockwise,
      Ev.setDutyCycleSp MotorId.rotationMotor 0,
      Ev.commandMotor MotorId.rotationMotor commands.RUN_DIRECT,
      Ev.lockCorrection, Ev.writeCorrection false, Ev.unlockCorrection])
  else if position < TOP_LEFT_POS then
    -- lines 948-966: Recovery-Absolute past the geometric soft limit
    (actions_rotation.ROTATE_STOP,
     { sh with correction_in_progress := false },
     [Ev.lockIntent, Ev.unlockIntent,
      Ev.lockCorrection, Ev.writeCorrection true, Ev.unlockCorrection,
      Ev.setPositionSp MotorId.rotationMotor 0,
      Ev.commandMotor MotorId.rotationMotor commands.RUN_ABS_POS,
      Ev.waitMotorStopped MotorId.rotationMotor,
      Ev.setDutyCycleSp MotorId.rotationMotor 0,
      Ev.commandMotor MotorId.rotationMotor commands.RUN_DIRECT,
      Ev.lockCorrection, Ev.writeCorrection false, Ev.unlockCorrection])
  else if rotation_actual ≠ rotation_next then
    -- lines 968-981: direct drive on intent change (no motor command is
    -- issued here: the motor stays in run-direct mode and the new duty
    -- cycle setpoint takes effect immediately)
    (rotation_next, sh,
     [Ev.lockIntent, Ev.unlockIntent,
      Ev.setDutyCycleSp MotorId.rotationMotor
        (match rotation_next with
         | actions_rotation.ROTATE_RIGHT => ROTATION_POWER
         | actions_rotation.ROTATE_LEFT => -ROTATION_POWER
         | actions_rotation.ROTATE_STOP => 0)])
  else
    (rotation_actual, sh, [Ev.lockIntent, Ev.unlockIntent])

/-- The loop guard `while (!is_close_pressed())` of the rotation
controller: when the close flag is observed true the loop exits and the
activity performs no further action. -/
def rotation_motor_controller_step (devFail : Bool) (rotation_actual : actions_rotation)
    (sh : Shared) (position : Int) :
    Option (actions_rotation × Shared × List Ev) :=
  if sh.close then none
  else some (rotation_motor_controller_tick devFail rotation_actual sh position)

/-! ### Elevation motor controller (main.c lines 989-1068) -/

/-- One iteration of the `elevation_motor_controller` loop body
(main.c lines 1000-1065).  Same shape as the rotation controller, with the
elevation constants: Recovery-Relative by `ELEVATION_INIT_UNITS` after the
color (top) limit, Recovery-Absolute to 0 past `TOP_BOTTOM_POS`, and
direct drive with `ELEVATION_UP_POWER` / `ELEVATION_DOWN_POWER`. -/
def elevation_motor_controller_tick (_devFail : Bool) (elevation_actual : actions_elevation)
    (sh : Shared) (position : Int) :
    actions_elevation × Shared × List Ev :=
  -- lines 1001-1003: snapshot of the Intent elevation field under its mutex
  let elevation_next := sh.elevation
  if sh.top_limit_reached then
    -- lines 1005-1027: Recovery-Relative after the color (top) limit
    (actions_elevation.ELEVATE_STOP,
     { sh with top_limit_reached := false, correction_in_progress := false },
     [Ev.lockIntent, Ev.unlockIntent,
      Ev.lockCorrection, Ev.writeCorrection true, Ev.unlockCorrection,
      Ev.setPositionSp MotorId.elevationMotor ELEVATION_INIT_UNITS,
      Ev.commandMotor MotorId.elevationMotor commands.RUN_REL_POS,
      Ev.waitMotorStopped MotorId.elevationMotor,
      Ev.lockTop, Ev.writeTopLimit false, Ev.unlockTop,
      Ev.setDutyCycleSp MotorId.elevationMotor 0,
      Ev.commandMotor MotorId.elevationMotor commands.RUN_DIRECT,
      Ev.lockCorrection, Ev.writeCorrection false, Ev.unlockCorrection])
  else if position > TOP_BOTTOM_POS then
    -- lines 1029-1047: Recovery-Absolute past the geometric soft limit
    (actions_elevation.ELEVATE_STOP,
     { sh with correction_in_progress := false },
     [Ev.lockIntent, Ev.unlockIntent,
      Ev.lockCorrection, Ev.writeCorrection true, Ev.unlockCorrection,
      Ev.setPositionSp MotorId.elevationMotor 0,
      Ev.commandMotor MotorId.elevationMotor commands.RUN_ABS_POS,
      Ev.waitMotorStopped MotorId.elevationMotor,
      Ev.setDutyCycleSp MotorId.elevationMotor 0,
      Ev.commandMotor MotorId.elevationMotor commands.RUN_DIRECT,
      Ev.lockCorrection, Ev.writeCorrection false, Ev.unlockCorrection])
  else if elevation_actual ≠ elevation_next then
    -- lines 1049-1062: direct drive on intent change (setpoint only, the
    -- motor stays in run-direct mode)
    (elevation_next, sh,
     [Ev.lockIntent, Ev.unlockIntent,
      Ev.setDutyCycleSp MotorId.elevationMotor
        (match elevation_next with
         | actions_elevation.RISE => ELEVATION_UP_POWER
         | actions_elevation.LOWER => ELEVATION_DOWN_POWER
         | actions_elevation.ELEVATE_STOP => 0)])
  else
    (elevation_actual, sh, [Ev.lockIntent, Ev.unlockIntent])

/-- Loop guard of the elevation controller. -/
def elevation_motor_controller_step (devFail : Bool) (elevation_actual : actions_elevation)
    (sh : Shared) (position : Int) :
    Option (actions_elevation × Shared × List Ev) :=
  if sh.close then none
  else some (elevation_motor_controller_tick devFail elevation_actual sh position)

/-! ### Claw motor controller (main.c lines 1070-1120) -/

/-- One iteration of the `claw_motor_controller` loop body
(main.c lines 1080-1118).  `claw_open` is the local variable of the same
name.  On a snapshot of ACTIVE: if open, close with duty `-CLAW_POWER` for
`CLAW_CLOSE_TIME` then cut power and publish ClawClosed; if closed, run to
absolute position 0, wait, cut power, publish ClawOpen.  Either branch
then resets the Intent claw field to INACTIVE. -/
def claw_motor_controller_tick (_devFail : Bool) (claw_open : Bool) (sh : Shared) :
    Bool × Shared × List Ev :=
  -- lines 1081-1083: snapshot of the Intent claw field under its mutex
  let claw_status := sh.claw
  if claw_status = actions_claw.ACTIVE then
    if claw_open then
      -- lines 1086-1095: timed close
      (false,
       { sh with claw_used_status := true, claw := actions_claw.INACTIVE },
       [Ev.lockIntent, Ev.unlockIntent,
        Ev.setDutyCycleSp MotorId.clawMotor (-CLAW_POWER),
        Ev.commandMotor MotorId.clawMotor commands.RUN_DIRECT,
        Ev.usleepEv CLAW_CLOSE_TIME,
        Ev.setDutyCycleSp MotorId.clawMotor 0,
        Ev.lockClawUsed, Ev.writeClawUsed true, Ev.unlockClawUsed,
        Ev.lockIntent, Ev.writeClawIntent actions_claw.INACTIVE, Ev.unlockIntent])
    else
      -- lines 1096-1111: positioned open
      (true,
       { sh with claw_used_status := false, claw := actions_claw.INACTIVE },
       [Ev.lockIntent, Ev.unlockIntent,
        Ev.setPositionSp MotorId.clawMotor 0,
        Ev.commandMotor MotorId.clawMotor commands.RUN_ABS_POS,
        Ev.waitMotorStopped MotorId.clawMotor,
        Ev.setDutyCycleSp MotorId.clawMotor 0,
        Ev.commandMotor MotorId.clawMotor commands.RUN_DIRECT,
        Ev.lockClawUsed, Ev.writeClawUsed false, Ev.unlockClawUsed,
        Ev.lockIntent, Ev.writeClawIntent actions_claw.INACTIVE, Ev.unlockIntent])
  else
    (claw_open, sh, [Ev.lockIntent, Ev.unlockIntent])

/-- Loop guard of the claw controller. -/
def claw_motor_controller_step (devFail : Bool) (claw_open : Bool) (sh : Shared) :
    Option (Bool × Shared × List Ev) :=
  if sh.close then none
  else some (claw_motor_controller_tick devFail claw_open sh)

/-! ### Button sampler (main.c lines 807-860) -/

/-- The five directional keys plus BACK as read by `ev3_button_pressed`. -/
structure Buttons where
  left : Bool
  right : Bool
  up : Bool
  down : Bool
  center : Bool
  back : Bool
deriving DecidableEq

/-- One iteration of the `buttons_controller` loop body (main.c lines
813-857): compute the Intent triple from the keys, publish all three
fields under one acquisition of the Intent mutex, then publish the close
flag (only ever set to true) under the close mutex. -/
def buttons_controller_tick (b : Buttons) (sh : Shared) : Shared × List Ev :=
  -- lines 815-826: rotation buttons
  let rot : actions_rotation :=
    if b.left then
      (if b.right then actions_rotation.ROTATE_STOP else actions_rotation.ROTATE_LEFT)
    else if b.right then actions_rotation.ROTATE_RIGHT
    else actions_rotation.ROTATE_STOP
  -- lines 828-839: elevation buttons
  let elev : actions_elevation :=
    if b.up then
      (if b.down then actions_elevation.ELEVATE_STOP else actions_elevation.RISE)
    else if b.down then actions_elevation.LOWER
    else actions_elevation.ELEVATE_STOP
  -- lines 841-846: claw button
  let cl : actions_claw :=
    if b.center then actions_claw.ACTIVE else actions_claw.INACTIVE
  ({ sh with rotation := rot, elevation := elev, claw := cl,
             close := if b.back then true else sh.close },
   [Ev.lockIntent,
    Ev.writeRotationIntent rot, Ev.writeElevationIntent elev, Ev.writeClawIntent cl,
    Ev.unlockIntent,
    Ev.lockClose] ++
   -- lines 850-855: cancel button, latching
   (if b.back then [Ev.writeClose true] else []) ++
   [Ev.unlockClose])

/-- Loop guard of the button sampler. -/
def buttons_controller_step (b : Buttons) (sh : Shared) : Option (Shared × List Ev) :=
  if sh.close then none else some (buttons_controller_tick b sh)

/-! ### Color and touch sensor samplers (main.c lines 862-907) -/

/-- One iteration of the `color_sensor_controller` loop body (main.c lines
870-880): read the reflected-light value; at or above `REFLECTION_LIMIT`
set the top limit flag (never cleared here). -/
def color_sensor_controller_tick (_devFail : Bool) (color_data : Int) (sh : Shared) :
    Shared × List Ev :=
  if color_data ≥ REFLECTION_LIMIT then
    ({ sh with top_limit_reached := true },
     [Ev.updateSensor SensorId.colorSensor,
      Ev.lockTop, Ev.writeTopLimit true, Ev.unlockTop])
  else
    (sh, [Ev.updateSensor SensorId.colorSensor])

/-- Loop guard of the color sampler. -/
def color_sensor_controller_step (devFail : Bool) (color_data : Int) (sh : Shared) :
    Option (Shared × List Ev) :=
  if sh.close then none else some (color_sensor_controller_tick devFail color_data sh)

/-- One iteration of the `touch_sensor_controller` loop body (main.c lines
894-904): on switch closure set the clockwise limit flag (never cleared
here). -/
def touch_sensor_controller_tick (_devFail : Bool) (touch_data : Int) (sh : Shared) :
    Shared × List Ev :=
  if touch_data = TOUCH_SENSOR_ACTIVE then
    ({ sh with clockwise_limit_reached := true },
     [Ev.updateSensor SensorId.touchSensor,
      Ev.lockClockwise, Ev.writeClockwiseLimit true, Ev.unlockClockwise])
  else
    (sh, [Ev.updateSensor SensorId.touchSensor])

/-- Loop guard of the touch sampler. -/
def touch_sensor_controller_step (devFail : Bool) (touch_data : Int) (sh : Shared) :
    Option (Shared × List Ev) :=
  if sh.close then none else some (touch_sensor_controller_tick devFail touch_data sh)

/-! ### LED reporter (main.c lines 1122-1151) -/

/-- One iteration of the `leds_controller` loop body (main.c lines
1130-1149).  `previous` is the local variable of the same name; writes
happen only on a change of the snapshot of `correction_in_progress`. -/
def leds_controller_tick (previous : Bool) (sh : Shared) : Bool × List Ev :=
  let actual := sh.correction_in_progress
  if actual && !previous then
    (true,
     [Ev.lockCorrection, Ev.unlockCorrection,
      Ev.setLed LedSide.LEFT_LED LedColor.RED_LED 255,
      Ev.setLed LedSide.RIGHT_LED LedColor.RED_LED 255,
      Ev.setLed LedSide.LEFT_LED LedColor.GREEN_LED 0,
      Ev.setLed LedSide.RIGHT_LED LedColor.GREEN_LED 0])
  else if !actual && previous then
    (false,
     [Ev.lockCorrection, Ev.unlockCorrection,
      Ev.setLed LedSide.LEFT_LED LedColor.GREEN_LED 255,
      Ev.setLed LedSide.RIGHT_LED LedColor.GREEN_LED 255,
      Ev.setLed LedSide.LEFT_LED LedColor.RED_LED 0,
      Ev.setLed LedSide.RIGHT_LED LedColor.RED_LED 0])
  else
    (previous, [Ev.lockCorrection, Ev.unlockCorrection])

/-- Loop guard of the LED reporter. -/
def leds_controller_step (previous : Bool) (sh : Shared) : Option (Bool × List Ev) :=
  if sh.close then none else some (leds_controller_tick previous sh)

/-! ### LCD reporter (main.c lines 1153-1193) -/

def X_TITLE : Nat := 20

def Y_TITLE : Nat := 10

def EV3_X_LCD : Nat := 178

def EV3_Y_LCD : Nat := 128

def X_CIRCLE : Nat := EV3_X_LCD / 2

def Y_CIRCLE : Nat := EV3_Y_LCD / 2

def RADIUS : Nat := 35

def COLOR_CIRCLE : Nat := 1

def X_TIME : Nat := 60

def Y_TIME : Nat := EV3_Y_LCD - 20

/-- One iteration of the `reporter` loop body (main.c lines 1166-1191):
clear the LCD, snapshot ClawClosed, draw the title, a filled or outlined
circle, and the wall-clock time (`textLcdTime` summarizes the sprintf of
"%02d:%02d:%02d" plus `ev3_text_lcd_normal`). -/
def reporter_tick (sh : Shared) (hour minute second : Nat) : List Ev :=
  [Ev.clearLcd,
   Ev.lockClawUsed, Ev.unlockClawUsed,
   Ev.textLcdTitle X_TITLE Y_TITLE] ++
  (if sh.claw_used_status then [Ev.circleLcd X_CIRCLE Y_CIRCLE RADIUS COLOR_CIRCLE]
   else [Ev.circleLcdOut X_CIRCLE Y_CIRCLE RADIUS COLOR_CIRCLE]) ++
  [Ev.textLcdTime X_TIME Y_TIME hour minute second]

/-- Loop guard of the LCD reporter. -/
def reporter_step (sh : Shared) (hour minute second : Nat) : Option (List Ev) :=
  if sh.close then none else some (reporter_tick sh hour minute second)

/-! ### Startup (main.c lines 311-597) and the one-shot calibrators -/

/-- Actions of `rotation_motor_initializer` (main.c lines 695-733): hold
mode, rotate clockwise at `ROTATION_POWER` until the touch sensor fires
(the polling loop 707-713 only reads the sensor), then a relative move by
`ROTATION_INIT_UNITS` at 40% of max speed, wait, cut power, and zero the
encoder.  `(STEP_ROTATION_SPEED * FULL_SPEED_LARGE_MOTOR) / 100` is the
speed setpoint computed from the motor's `max_speed` (900 deg/s for the
large motor). -/
def rotation_motor_initializer_trace : List Ev :=
  [Ev.setStopAction MotorId.rotationMotor stop_mode.HOLD,
   Ev.setDutyCycleSp MotorId.rotationMotor ROTATION_POWER,
   Ev.commandMotor MotorId.rotationMotor commands.RUN_DIRECT,
   Ev.waitSensorLimit SensorId.touchSensor,
   Ev.setSpeedSp MotorId.rotationMotor ((STEP_ROTATION_SPEED * FULL_SPEED_LARGE_MOTOR) / 100),
   Ev.setPositionSp MotorId.rotationMotor ROTATION_INIT_UNITS,
   Ev.commandMotor MotorId.rotationMotor commands.RUN_REL_POS,
   Ev.waitMotorStopped MotorId.rotationMotor,
   Ev.setDutyCycleSp MotorId.rotationMotor 0,
   Ev.commandMotor MotorId.rotationMotor commands.RUN_DIRECT,
   Ev.setPosition MotorId.rotationMotor 0]

/-- Actions of `elevation_motor_initializer` (main.c lines 735-771): rise
at `ELEVATION_UP_POWER` until the reflected light passes
`REFLECTION_LIMIT`, then lower by `ELEVATION_INIT_UNITS` at 20% of max
speed, wait, cut power, zero the encoder. -/
def elevation_motor_initializer_trace : List Ev :=
  [Ev.setStopAction MotorId.elevationMotor stop_mode.HOLD,
   Ev.setDutyCycleSp MotorId.elevationMotor ELEVATION_UP_POWER,
   Ev.commandMotor MotorId.elevationMotor commands.RUN_DIRECT,
   Ev.waitSensorLimit SensorId.colorSensor,
   Ev.setSpeedSp MotorId.elevationMotor ((STEP_ELEVATION_SPEED * FULL_SPEED_LARGE_MOTOR) / 100),
   Ev.setPositionSp MotorId.elevationMotor ELEVATION_INIT_UNITS,
   Ev.commandMotor MotorId.elevationMotor commands.RUN_REL_POS,
   Ev.waitMotorStopped MotorId.elevationMotor,
   Ev.setDutyCycleSp MotorId.elevationMotor 0,
   Ev.commandMotor MotorId.elevationMotor commands.RUN_DIRECT,
   Ev.setPosition MotorId.elevationMotor 0]

/-- Actions of `claw_motor_initializer` (main.c lines 773-805): close at
`-CLAW_POWER` until the motor stalls (state == MOTOR_LIMIT), then open by
`CLAW_INIT_UNITS` at 40% of max speed (1200 deg/s for the medium motor),
wait, cut power, zero the encoder. -/
def claw_motor_initializer_trace : List Ev :=
  [Ev.setStopAction MotorId.clawMotor stop_mode.HOLD,
   Ev.setDutyCycleSp MotorId.clawMotor (-CLAW_POWER),
   Ev.commandMotor MotorId.clawMotor commands.RUN_DIRECT,
   Ev.waitMotorStalled MotorId.clawMotor,
   Ev.setSpeedSp MotorId.clawMotor ((STEP_CLAW_SPEED * FULL_SPEED_MEDIUM_MOTOR) / 100),
   Ev.setPositionSp MotorId.clawMotor CLAW_INIT_UNITS,
   Ev.commandMotor MotorId.clawMotor commands.RUN_REL_POS,
   Ev.waitMotorStopped MotorId.clawMotor,
   Ev.setDutyCycleSp MotorId.clawMotor 0,
   Ev.commandMotor MotorId.clawMotor commands.RUN_DIRECT,
   Ev.setPosition MotorId.clawMotor 0]

/-- Every device action `main` performs before creating the periodic
activity threads (main.c lines 311-597): device loading and opening
(317-399), button/LED/LCD initialization (402-408), then the three
calibration threads (462-473), which `main` joins before starting the
periodic activities.  The three calibrators run concurrently on disjoint
devices; this list is one serialization of them, and the properties proved
below (absence of LED writes) are order-independent. -/
def main_startup_trace : List Ev :=
  [Ev.resetMotor MotorId.rotationMotor, Ev.openMotor MotorId.rotationMotor,
   Ev.resetMotor MotorId.elevationMotor, Ev.openMotor MotorId.elevationMotor,
   Ev.resetMotor MotorId.clawMotor, Ev.openMotor MotorId.clawMotor,
   Ev.openSensor SensorId.touchSensor, Ev.openSensor SensorId.colorSensor,
   Ev.modeSensor SensorId.colorSensor color_command.COL_REFLECT,
   Ev.initButton, Ev.initLed, Ev.initLcd] ++
  rotation_motor_initializer_trace ++
  elevation_motor_initializer_trace ++
  claw_motor_initializer_trace

/-! ### Iterated ticks of the motor controllers -/

/-- Consecutive iterations of the rotation controller: one tick per entry
of `positions`, threading the local `rotation_actual` and the shared state
(no other activity runs in between, so the snapshotted Intent field keeps
its value).  Returns the final local state, the final shared state, and
the per-tick traces in order. -/
def rotation_motor_controller_run (devFail : Bool) (rotation_actual : actions_rotation)
    (sh : Shared) : List Int → actions_rotation × Shared × List (List Ev)
  | [] => (rotation_actual, sh, [])
  | position :: rest =>
    let r := rotation_motor_controller_tick devFail rotation_actual sh position
    let rr := rotation_motor_controller_run devFail r.1 r.2.1 rest
    (rr.1, rr.2.1, r.2.2 :: rr.2.2)

/-- Consecutive iterations of the elevation controller, as for rotation. -/
def elevation_motor_controller_run (devFail : Bool) (elevation_actual : actions_elevation)
    (sh : Shared) : List Int → actions_elevation × Shared × List (List Ev)
  | [] => (elevation_actual, sh, [])
  | position :: rest =>
    let r := elevation_motor_controller_tick devFail elevation_actual sh position
    let rr := elevation_motor_controller_run devFail r.1 r.2.1 rest
    (rr.1, rr.2.1, r.2.2 :: rr.2.2)

/-! ### Trace observations -/

/-- The duty-cycle setpoints a trace issues to motor `m`, in order. -/
def dutyValues (m : MotorId) (tr : List Ev) : List Int :=
  tr.filterMap fun e =>
    match e with
    | Ev.setDutyCycleSp m' v => if m' = m then some v else none
    | _ => none

/-- The values written to `CorrectionInProgress` by a trace, in order. -/
def corrWrites (tr : List Ev) : List Bool :=
  tr.filterMap fun e =>
    match e with
    | Ev.writeCorrection b => some b
    | _ => none

/-- The values written to the close flag by a trace, in order. -/
def closeWrites (tr : List Ev) : List Bool :=
  tr.filterMap fun e =>
    match e with
    | Ev.writeClose b => some b
    | _ => none

/-- Whether an event is a write to a limit flag or to an Intent field. -/
def isLimitOrIntentWrite : Ev → Bool
  | Ev.writeTopLimit _ => true
  | Ev.writeClockwiseLimit _ => true
  | Ev.writeRotationIntent _ => true
  | Ev.writeElevationIntent _ => true
  | Ev.writeClawIntent _ => true
  | _ => false

/-- Whether an event is an LED write. -/
def isSetLed : Ev → Bool
  | Ev.setLed _ _ _ => true
  | _ => false

/-- State of the `CorrectionInProgress` boolean after executing a list of
events starting from `c` (the last written value, if any). -/
def corrAfter (c : Bool) : List Ev → Bool
  | [] => c
  | Ev.writeCorrection b :: tr => corrAfter b tr
  | _ :: tr => corrAfter c tr

/-! ### Interleavings of the two recovery-capable controllers

The rotation and elevation controller threads run concurrently at the
same priority and both read-modify the single shared
`correction.correction_in_progress` boolean.  A schedule of one tick of
each is a merge of the two ticks' event lists that preserves each
thread's order; the shared boolean's value at any point is the last value
written by either thread. -/

/-- Thread tags for the two recovery-capable controllers. -/
inductive Th where
  | rotTh | elevTh
deriving DecidableEq

/-- The subsequence of a merged schedule performed by thread `t`. -/
def projectThread (t : Th) (m : List (Th × Ev)) : List Ev :=
  m.filterMap fun p => if p.1 = t then some p.2 else none

/-- `m` is an interleaving of thread traces `ra` (rotation) and `ea`
(elevation): its projections are exactly those traces. -/
def IsInterleaving (m : List (Th × Ev)) (ra ea : List Ev) : Prop :=
  projectThread Th.rotTh m = ra ∧ projectThread Th.elevTh m = ea

/-- A controller is inside a blocking recovery subsequence after the
events it has performed so far exactly when its own last write to
`CorrectionInProgress` was `true` (each recovery branch writes `true` on
entry and `false` on exit, and no other write occurs). -/
def insideRecovery (t : Th) (m : List (Th × Ev)) : Bool :=
  corrAfter false (projectThread t m)

/-! ### Concrete states and schedules used by the closed theorems -/

/-- A state in which both the touch and the color limit flags are set and
the user holds LEFT and UP. -/
def shBothLimits : Shared :=
  { initialShared with
      clockwise_limit_reached := true
      top_limit_reached := true
      rotation := actions_rotation.ROTATE_LEFT
      elevation := actions_elevation.RISE }

/-- A state in which the published Intent asks for a left rotation and no
limit flag is set. -/
def shLeftIntent : Shared :=
  { initialShared with rotation := actions_rotation.ROTATE_LEFT }

/-- A state in which the close flag has been latched. -/
def shClosed : Shared := { initialShared with close := true }

/-- No key pressed. -/
def noButtons : Buttons :=
  { left := false, right := false, up := false, down := false, center := false, back := false }

/-- The trace of one rotation-controller tick entered with the clockwise
limit flag set (a Recovery-Relative tick). -/
def rotRecTrace : List Ev :=
  (rotation_motor_controller_tick false actions_rotation.ROTATE_STOP
    { initialShared with clockwise_limit_reached := true } 0).2.2

/-- The trace of one elevation-controller tick entered with the top limit
flag set (a Recovery-Relative tick). -/
def elevRecTrace : List Ev :=
  (elevation_motor_controller_tick false actions_elevation.ELEVATE_STOP
    { initialShared with top_limit_reached := true } 0).2.2

/-- A schedule of one rotation-recovery tick and one elevation-recovery
tick: rotation enters its recovery (through its `writeCorrection true`,
event 5 of its trace), then elevation enters its recovery, then the
rotation recovery runs to completion (its blocking wait overlaps the
elevation recovery), then the elevation recovery completes.  Every cut
point between the chunks lies outside any held mutex. -/
def c3Merged : List (Th × Ev) :=
  (rotRecTrace.take 5).map (fun e => (Th.rotTh, e)) ++
  (elevRecTrace.take 5).map (fun e => (Th.elevTh, e)) ++
  (rotRecTrace.drop 5).map (fun e => (Th.rotTh, e)) ++
  (elevRecTrace.drop 5).map (fun e => (Th.elevTh, e))

/-! ## Theorems -/

/-- C1: For every tick of every motor controller and every Intent value,
every duty-cycle setpoint issued to a motor lies in its axis's allowed
range: the rotation controller issues only +30, -30 or 0; the elevation
controller issues only -30, +20 or 0; the claw controller issues only
-40 or 0 (within the allowed set {+40, -40, 0}). -/
theorem c1_duty_cycle_range :
    (∀ devFail rotation_actual sh position,
       ((dutyValues MotorId.rotationMotor
           (rotation_motor_controller_tick devFail rotation_actual sh position).2.2).all
         fun v => v == 30 || v == -30 || v == 0) = true) ∧
    (∀ devFail elevation_actual sh position,
       ((dutyValues MotorId.elevationMotor
           (elevation_motor_controller_tick devFail elevation_actual sh position).2.2).all
         fun v => v == -30 || v == 20 || v == 0) = true) ∧
    (∀ devFail claw_open sh,
       ((dutyValues MotorId.clawMotor
           (claw_motor_controller_tick devFail claw_open sh).2.2).all
         fun v => v == -40 || v == 0) = true) := by
  refine ⟨?_, ?_, ?_⟩
  · intro d st sh pos
    rcases sh with ⟨r, e, c, tl, cl, co, cp, cu⟩
    simp only [rotation_motor_controller_tick]
    split_ifs <;> first
      | rfl
      | (cases r <;> rfl)
  · intro d st sh pos
    rcases sh with ⟨r, e, c, tl, cl, co, cp, cu⟩
    simp only [elevation_motor_controller_tick]
    split_ifs <;> first
      | rfl
      | (cases e <;> rfl)
  · intro d co sh
    rcases sh with ⟨r, e, c, tl, cl, cls, cp, cu⟩
    simp only [claw_motor_controller_tick]
    split_ifs <;> rfl

/-- C2: For every tick of the rotation (resp. elevation) controller in
which the axis's sensor-detected limit flag is set, the controller
performs Recovery-Relative — a relative move by the fixed recovery offset
(rotation -350, elevation +100), wait for motion completion, clear that
limit flag, cut power to zero, and set current_action to STOP — and this
branch is taken for every encoder position, in particular when the
soft-limit condition also holds in the same tick (sensor-limit recovery
takes precedence). -/
theorem c2_sensor_limit_recovery_precedence :
    (∀ devFail rotation_actual sh position,
       sh.clockwise_limit_reached = true →
       rotation_motor_controller_tick devFail rotation_actual sh position =
         (actions_rotation.ROTATE_STOP,
          { sh with clockwise_limit_reached := false, correction_in_progress := false },
          [Ev.lockIntent, Ev.unlockIntent,
           Ev.lockCorrection, Ev.writeCorrection true, Ev.unlockCorrection,
           Ev.setPositionSp MotorId.rotationMotor (-350),
           Ev.commandMotor MotorId.rotationMotor commands.RUN_REL_POS,
           Ev.waitMotorStopped MotorId.rotationMotor,
           Ev.lockClockwise, Ev.writeClockwiseLimit false, Ev.unlockClockwise,
           Ev.setDutyCycleSp MotorId.rotationMotor 0,
           Ev.commandMotor MotorId.rotationMotor commands.RUN_DIRECT,
           Ev.lockCorrection, Ev.writeCorrection false, Ev.unlockCorrection])) ∧
    (∀ devFail elevation_actual sh position,
       sh.top_limit_reached = true →
       elevation_motor_controller_tick devFail elevation_actual sh position =
         (actions_elevation.ELEVATE_STOP,
          { sh with top_limit_reached := false, correction_in_progress := false },
          [Ev.lockIntent, Ev.unlockIntent,
           Ev.lockCorrection, Ev.writeCorrection true, Ev.unlockCorrection,
           Ev.setPositionSp MotorId.elevationMotor 100,
           Ev.commandMotor MotorId.elevationMotor commands.RUN_REL_POS,
           Ev.waitMotorStopped MotorId.elevationMotor,
           Ev.lockTop, Ev.writeTopLimit false, Ev.unlockTop,
           Ev.setDutyCycleSp MotorId.elevationMotor 0,
           Ev.commandMotor MotorId.elevationMotor commands.RUN_DIRECT,
           Ev.lockCorrection, Ev.writeCorrection false, Ev.unlockCorrection])) := by
  constructor
  · intro d st sh pos h
    simp [rotation_motor_controller_tick, h, ROTATION_INIT_UNITS]
  · intro d st sh pos h
    simp [elevation_motor_controller_tick, h, ELEVATION_INIT_UNITS]

/-- Witness for C2 at a concrete input where both the sensor limit and the
soft limit hold on each axis (rotation position -500 < -400, elevation
position 300 > 200): the sensor-limit recovery is still the branch
taken. -/
theorem c2_sensor_limit_recovery_precedence_witness :
    shBothLimits.clockwise_limit_reached = true ∧
    shBothLimits.top_limit_reached = true ∧
    rotation_motor_controller_tick false actions_rotation.ROTATE_LEFT shBothLimits (-500) =
      (actions_rotation.ROTATE_STOP,
       { shBothLimits with clockwise_limit_reached := false, correction_in_progress := false },
       [Ev.lockIntent, Ev.unlockIntent,
        Ev.lockCorrection, Ev.writeCorrection true, Ev.unlockCorrection,
        Ev.setPositionSp MotorId.rotationMotor (-350),
        Ev.commandMotor MotorId.rotationMotor commands.RUN_REL_POS,
        Ev.waitMotorStopped MotorId.rotationMotor,
        Ev.lockClockwise, Ev.writeClockwiseLimit false, Ev.unlockClockwise,
        Ev.setDutyCycleSp MotorId.rotationMotor 0,
        Ev.commandMotor MotorId.rotationMotor commands.RUN_DIRECT,
        Ev.lockCorrection, Ev.writeCorrection false, Ev.unlockCorrection]) ∧
    elevation_motor_controller_tick false actions_elevation.RISE shBothLimits 300 =
      (actions_elevation.ELEVATE_STOP,
       { shBothLimits with top_limit_reached := false, correction_in_progress := false },
       [Ev.lockIntent, Ev.unlockIntent,
        Ev.lockCorrection, Ev.writeCorrection true, Ev.unlockCorrection,
        Ev.setPositionSp MotorId.elevationMotor 100,
        Ev.commandMotor MotorId.elevationMotor commands.RUN_REL_POS,
        Ev.waitMotorStopped MotorId.elevationMotor,
        Ev.lockTop, Ev.writeTopLimit false, Ev.unlockTop,
        Ev.setDutyCycleSp MotorId.elevationMotor 0,
        Ev.commandMotor MotorId.elevationMotor commands.RUN_DIRECT,
        Ev.lockCorrection, Ev.writeCorrection false, Ev.unlockCorrection]) :=
  ⟨rfl, rfl,
   c2_sensor_limit_recovery_precedence.1 false actions_rotation.ROTATE_LEFT shBothLimits (-500) rfl,
   c2_sensor_limit_recovery_precedence.2 false actions_elevation.RISE shBothLimits 300 rfl⟩

/-- C3 counterexample: the claim's biconditional "CorrectionInProgress is
true exactly when some motor controller is inside a blocking recovery
subsequence" fails on a concrete legal schedule of one rotation-recovery
tick and one elevation-recovery tick (both limit flags set, as after S2
and S3 triggering together).  In the schedule `c3Merged` — a genuine
interleaving of the two ticks' event sequences — after 21 events the
rotation recovery has completed (its exit wrote `false` to the shared
flag) while the elevation controller is still between its own entry and
exit writes, i.e. inside its blocking recovery; yet `CorrectionInProgress`
reads false there. -/
theorem c3_counterexample :
    IsInterleaving c3Merged rotRecTrace elevRecTrace ∧
    insideRecovery Th.elevTh (c3Merged.take 21) = true ∧
    corrAfter false ((c3Merged.take 21).map Prod.snd) = false := by
  refine ⟨⟨?_, ?_⟩, ?_, ?_⟩ <;> decide

/-- C3 amended: in every recovery branch of the rotation and elevation
controllers (Recovery-Relative and Recovery-Absolute alike), the tick's
event sequence writes CorrectionInProgress true before the recovery
motion command and writes it back false after the power cut, with no
other CorrectionInProgress write in between, and ticks that take no
recovery branch never write CorrectionInProgress.  (Tick-locally the flag
is therefore true exactly during the blocking recovery subsequence; the
claim's global "exactly when some controller is inside a recovery" can
fail when two recoveries overlap, as `c3_counterexample` shows.) -/
theorem c3_amended_correction_bracketing :
    (∀ devFail rotation_actual sh position,
       sh.clockwise_limit_reached = true ∨ position < TOP_LEFT_POS →
       ∃ mid,
         (rotation_motor_controller_tick devFail rotation_actual sh position).2.2 =
           [Ev.lockIntent, Ev.unlockIntent, Ev.lockCorrection, Ev.writeCorrection true,
            Ev.unlockCorrection] ++ mid ++
           [Ev.lockCorrection, Ev.writeCorrection false, Ev.unlockCorrection] ∧
         corrWrites mid = [] ∧
         (Ev.commandMotor MotorId.rotationMotor commands.RUN_REL_POS ∈ mid ∨
          Ev.commandMotor MotorId.rotationMotor commands.RUN_ABS_POS ∈ mid) ∧
         Ev.waitMotorStopped MotorId.rotationMotor ∈ mid ∧
         Ev.setDutyCycleSp MotorId.rotationMotor 0 ∈ mid) ∧
    (∀ devFail rotation_actual sh position,
       sh.clockwise_limit_reached = false → ¬ position < TOP_LEFT_POS →
       corrWrites (rotation_motor_controller_tick devFail rotation_actual sh position).2.2
         = []) ∧
    (∀ devFail elevation_actual sh position,
       sh.top_limit_reached = true ∨ position > TOP_BOTTOM_POS →
       ∃ mid,
         (elevation_motor_controller_tick devFail elevation_actual sh position).2.2 =
           [Ev.lockIntent, Ev.unlockIntent, Ev.lockCorrection, Ev.writeCorrection true,
            Ev.unlockCorrection] ++ mid ++
           [Ev.lockCorrection, Ev.writeCorrection false, Ev.unlockCorrection] ∧
         corrWrites mid = [] ∧
         (Ev.commandMotor MotorId.elevationMotor commands.RUN_REL_POS ∈ mid ∨
          Ev.commandMotor MotorId.elevationMotor commands.RUN_ABS_POS ∈ mid) ∧
         Ev.waitMotorStopped MotorId.elevationMotor ∈ mid ∧
         Ev.setDutyCycleSp MotorId.elevationMotor 0 ∈ mid) ∧
    (∀ devFail elevation_actual sh position,
       sh.top_limit_reached = false → ¬ position > TOP_BOTTOM_POS →
       corrWrites (elevation_motor_controller_tick devFail elevation_actual sh position).2.2
         = []) := by
  refine ⟨?_, ?_, ?_, ?_⟩
  · intro d st sh pos h
    rcases h with h | h
    · refine ⟨[Ev.setPositionSp MotorId.rotationMotor ROTATION_INIT_UNITS,
        Ev.commandMotor MotorId.rotationMotor commands.RUN_REL_POS,
        Ev.waitMotorStopped MotorId.rotationMotor,
        Ev.lockClockwise, Ev.writeClockwiseLimit false, Ev.unlockClockwise,
        Ev.setDutyCycleSp MotorId.rotationMotor 0,
        Ev.commandMotor MotorId.rotationMotor commands.RUN_DIRECT], ?_, ?_, ?_, ?_, ?_⟩ <;>
        simp [rotation_motor_controller_tick, h, corrWrites]
    · by_cases hc : sh.clockwise_limit_reached = true
      · refine ⟨[Ev.setPositionSp MotorId.rotationMotor ROTATION_INIT_UNITS,
          Ev.commandMotor MotorId.rotationMotor commands.RUN_REL_POS,
          Ev.waitMotorStopped MotorId.rotationMotor,
          Ev.lockClockwise, Ev.writeClockwiseLimit false, Ev.unlockClockwise,
          Ev.setDutyCycleSp MotorId.rotationMotor 0,
          Ev.commandMotor MotorId.rotationMotor commands.RUN_DIRECT], ?_, ?_, ?_, ?_, ?_⟩ <;>
          simp [rotation_motor_controller_tick, hc, corrWrites]
      · refine ⟨[Ev.setPositionSp MotorId.rotationMotor 0,
          Ev.commandMotor MotorId.rotationMotor commands.RUN_ABS_POS,
          Ev.waitMotorStopped MotorId.rotationMotor,
          Ev.setDutyCycleSp MotorId.rotationMotor 0,
          Ev.commandMotor MotorId.rotationMotor commands.RUN_DIRECT], ?_, ?_, ?_, ?_, ?_⟩ <;>
          simp [rotation_motor_controller_tick, hc, h, corrWrites]
  · intro d st sh pos h hp
    simp only [rotation_motor_controller_tick]
    rw [if_neg (by simp [h]), if_neg hp]
    split_ifs <;> rfl
  · intro d st sh pos h
    rcases h with h | h
    · refine ⟨[Ev.setPositionSp MotorId.elevationMotor ELEVATION_INIT_UNITS,
        Ev.commandMotor MotorId.elevationMotor commands.RUN_REL_POS,
        Ev.waitMotorStopped MotorId.elevationMotor,
        Ev.lockTop, Ev.writeTopLimit false, Ev.unlockTop,
        Ev.setDutyCycleSp MotorId.elevationMotor 0,
        Ev.commandMotor MotorId.elevationMotor commands.RUN_DIRECT], ?_, ?_, ?_, ?_, ?_⟩ <;>
        simp [elevation_motor_controller_tick, h, corrWrites]
    · by_cases hc : sh.top_limit_reached = true
      · refine ⟨[Ev.setPositionSp MotorId.elevationMotor ELEVATION_INIT_UNITS,
          Ev.commandMotor MotorId.elevationMotor commands.RUN_REL_POS,
          Ev.waitMotorStopped MotorId.elevationMotor,
          Ev.lockTop, Ev.writeTopLimit false, Ev.unlockTop,
          Ev.setDutyCycleSp MotorId.elevationMotor 0,
          Ev.commandMotor MotorId.elevationMotor commands.RUN_DIRECT], ?_, ?_, ?_, ?_, ?_⟩ <;>
          simp [elevation_motor_controller_tick, hc, corrWrites]
      · refine ⟨[Ev.setPositionSp MotorId.elevationMotor 0,
          Ev.commandMotor MotorId.elevationMotor commands.RUN_ABS_POS,
          Ev.waitMotorStopped MotorId.elevationMotor,
          Ev.setDutyCycleSp MotorId.elevationMotor 0,
          Ev.commandMotor MotorId.elevationMotor commands.RUN_DIRECT], ?_, ?_, ?_, ?_, ?_⟩ <;>
          simp [elevation_motor_controller_tick, hc, h, corrWrites]
  · intro d st sh pos h hp
    simp only [elevation_motor_controller_tick]
    rw [if_neg (by simp [h]), if_neg hp]
    split_ifs <;> rfl

/-- Witness for the amended C3: the recovery bracketing at a concrete
recovering state and the absence of correction writes at a concrete
non-recovering state, on both axes. -/
theorem c3_amended_correction_bracketing_witness :
    (shBothLimits.clockwise_limit_reached = true ∨ (0 : Int) < TOP_LEFT_POS) ∧
    (∃ mid,
       (rotation_motor_controller_tick false actions_rotation.ROTATE_STOP shBothLimits 0).2.2 =
         [Ev.lockIntent, Ev.unlockIntent, Ev.lockCorrection, Ev.writeCorrection true,
          Ev.unlockCorrection] ++ mid ++
         [Ev.lockCorrection, Ev.writeCorrection false, Ev.unlockCorrection] ∧
       corrWrites mid = [] ∧
       (Ev.commandMotor MotorId.rotationMotor commands.RUN_REL_POS ∈ mid ∨
        Ev.commandMotor MotorId.rotationMotor commands.RUN_ABS_POS ∈ mid) ∧
       Ev.waitMotorStopped MotorId.rotationMotor ∈ mid ∧
       Ev.setDutyCycleSp MotorId.rotationMotor 0 ∈ mid) ∧
    corrWrites
      (rotation_motor_controller_tick false actions_rotation.ROTATE_STOP initialShared 0).2.2
      = [] ∧
    (∃ mid,
       (elevation_motor_controller_tick false actions_elevation.ELEVATE_STOP shBothLimits 0).2.2 =
         [Ev.lockIntent, Ev.unlockIntent, Ev.lockCorrection, Ev.writeCorrection true,
          Ev.unlockCorrection] ++ mid ++
         [Ev.lockCorrection, Ev.writeCorrection false, Ev.unlockCorrection] ∧
       corrWrites mid = [] ∧
       (Ev.commandMotor MotorId.elevationMotor commands.RUN_REL_POS ∈ mid ∨
        Ev.commandMotor MotorId.elevationMotor commands.RUN_ABS_POS ∈ mid) ∧
       Ev.waitMotorStopped MotorId.elevationMotor ∈ mid ∧
       Ev.setDutyCycleSp MotorId.elevationMotor 0 ∈ mid) ∧
    corrWrites
      (elevation_motor_controller_tick false actions_elevation.ELEVATE_STOP initialShared 0).2.2
      = [] :=
  ⟨Or.inl rfl,
   c3_amended_correction_bracketing.1 false actions_rotation.ROTATE_STOP shBothLimits 0
     (Or.inl rfl),
   c3_amended_correction_bracketing.2.1 false actions_rotation.ROTATE_STOP initialShared 0
     rfl (by decide),
   c3_amended_correction_bracketing.2.2.1 false actions_elevation.ELEVATE_STOP shBothLimits 0
     (Or.inl rfl),
   c3_amended_correction_bracketing.2.2.2 false actions_elevation.ELEVATE_STOP initialShared 0
     rfl (by decide)⟩

/-- C4 counterexample: in the color sampler's tick a failing device
operation (`devFail = true`, standing for `ev3_update_sensor_val`
failing) leaves the tick's entire behavior identical to the non-failing
tick — no error is reported, and Close stays false — because the C code
discards the device call's result.  This refutes "if a device operation
fails during that tick, the program reports the error and terminates by
setting Close to true". -/
theorem c4_counterexample :
    color_sensor_controller_tick true 35 initialShared =
      color_sensor_controller_tick false 35 initialShared ∧
    (color_sensor_controller_tick true 35 initialShared).1.close = false ∧
    closeWrites (color_sensor_controller_tick true 35 initialShared).2 = [] := by
  refine ⟨rfl, ?_, ?_⟩ <;> decide

/-- C4 amended: device-operation failures within a periodic tick are
ignored: every sampler's and motor controller's tick behaves identically
whether or not a device operation fails, leaves the Close flag exactly as
it was, and performs no Close write.  (Only the periodic `clock_nanosleep`
is checked, via the CHK macro, which aborts the process directly rather
than through Close.) -/
theorem c4_amended_device_errors_ignored :
    (∀ color_data sh,
       color_sensor_controller_tick true color_data sh =
         color_sensor_controller_tick false color_data sh ∧
       (color_sensor_controller_tick true color_data sh).1.close = sh.close ∧
       closeWrites (color_sensor_controller_tick true color_data sh).2 = []) ∧
    (∀ touch_data sh,
       touch_sensor_controller_tick true touch_data sh =
         touch_sensor_controller_tick false touch_data sh ∧
       (touch_sensor_controller_tick true touch_data sh).1.close = sh.close ∧
       closeWrites (touch_sensor_controller_tick true touch_data sh).2 = []) ∧
    (∀ rotation_actual sh position,
       rotation_motor_controller_tick true rotation_actual sh position =
         rotation_motor_controller_tick false rotation_actual sh position ∧
       (rotation_motor_controller_tick true rotation_actual sh position).2.1.close = sh.close ∧
       closeWrites (rotation_motor_controller_tick true rotation_actual sh position).2.2 = []) ∧
    (∀ elevation_actual sh position,
       elevation_motor_controller_tick true elevation_actual sh position =
         elevation_motor_controller_tick false elevation_actual sh position ∧
       (elevation_motor_controller_tick true elevation_actual sh position).2.1.close = sh.close ∧
       closeWrites (elevation_motor_controller_tick true elevation_actual sh position).2.2
         = []) ∧
    (∀ claw_open sh,
       claw_motor_controller_tick true claw_open sh =
         claw_motor_controller_tick false claw_open sh ∧
       (claw_motor_controller_tick true claw_open sh).2.1.close = sh.close ∧
       closeWrites (claw_motor_controller_tick true claw_open sh).2.2 = []) := by
  refine ⟨?_, ?_, ?_, ?_, ?_⟩
  · intro cd sh
    refine ⟨rfl, ?_, ?_⟩ <;>
      · simp only [color_sensor_controller_tick]
        split_ifs <;> rfl
  · intro td sh
    refine ⟨rfl, ?_, ?_⟩ <;>
      · simp only [touch_sensor_controller_tick]
        split_ifs <;> rfl
  · intro st sh pos
    refine ⟨rfl, ?_, ?_⟩ <;>
      · rcases sh with ⟨r, e, c, tl, cl, co, cp, cu⟩
        simp only [rotation_motor_controller_tick]
        split_ifs <;> rfl
  · intro st sh pos
    refine ⟨rfl, ?_, ?_⟩ <;>
      · rcases sh with ⟨r, e, c, tl, cl, co, cp, cu⟩
        simp only [elevation_motor_controller_tick]
        split_ifs <;> rfl
  · intro co sh
    refine ⟨rfl, ?_, ?_⟩ <;>
      · rcases sh with ⟨r, e, c, tl, cl, cls, cp, cu⟩
        simp only [claw_motor_controller_tick]
        split_ifs <;> rfl

/-- C5: once the Close flag is true it is never written back to false:
the button sampler computes the new flag as `old || back` and its trace
only ever writes `true` to it; no other activity writes the flag at all;
and every periodic activity's loop exits the first time it observes Close
true, performing no further actions in that activity (its step is
`none`). -/
theorem c5_close_latching_and_termination :
    (∀ b sh, (buttons_controller_tick b sh).1.close = (sh.close || b.back)) ∧
    (∀ b sh, (closeWrites (buttons_controller_tick b sh).2).all id = true) ∧
    (∀ devFail color_data sh,
       closeWrites (color_sensor_controller_tick devFail color_data sh).2 = []) ∧
    (∀ devFail touch_data sh,
       closeWrites (touch_sensor_controller_tick devFail touch_data sh).2 = []) ∧
    (∀ devFail rotation_actual sh position,
       closeWrites (rotation_motor_controller_tick devFail rotation_actual sh position).2.2
         = []) ∧
    (∀ devFail elevation_actual sh position,
       closeWrites (elevation_motor_controller_tick devFail elevation_actual sh position).2.2
         = []) ∧
    (∀ devFail claw_open sh,
       closeWrites (claw_motor_controller_tick devFail claw_open sh).2.2 = []) ∧
    (∀ previous sh, closeWrites (leds_controller_tick previous sh).2 = []) ∧
    (∀ sh hour minute second, closeWrites (reporter_tick sh hour minute second) = []) ∧
    (∀ b sh, sh.close = true → buttons_controller_step b sh = none) ∧
    (∀ devFail color_data sh, sh.close = true →
       color_sensor_controller_step devFail color_data sh = none) ∧
    (∀ devFail touch_data sh, sh.close = true →
       touch_sensor_controller_step devFail touch_data sh = none) ∧
    (∀ devFail rotation_actual sh position, sh.close = true →
       rotation_motor_controller_step devFail rotation_actual sh position = none) ∧
    (∀ devFail elevation_actual sh position, sh.close = true →
       elevation_motor_controller_step devFail elevation_actual sh position = none) ∧
    (∀ devFail claw_open sh, sh.close = true →
       claw_motor_controller_step devFail claw_open sh = none) ∧
    (∀ previous sh, sh.close = true → leds_controller_step previous sh = none) ∧
    (∀ sh hour minute second, sh.close = true →
       reporter_step sh hour minute second = none) := by
  refine ⟨?_, ?_, ?_, ?_, ?_, ?_, ?_, ?_, ?_, ?_, ?_, ?_, ?_, ?_, ?_, ?_, ?_⟩
  · intro b sh
    rcases b with ⟨l, r, u, d, c, bk⟩
    cases bk <;> simp [buttons_controller_tick]
  · intro b sh
    rcases b with ⟨l, r, u, d, c, bk⟩
    cases bk <;> cases l <;> cases r <;> cases u <;> cases d <;> cases c <;> rfl
  · intro d cd sh
    simp only [color_sensor_controller_tick]
    split_ifs <;> rfl
  · intro d td sh
    simp only [touch_sensor_controller_tick]
    split_ifs <;> rfl
  · intro d st sh pos
    rcases sh with ⟨r, e, c, tl, cl, co, cp, cu⟩
    simp only [rotation_motor_controller_tick]
    split_ifs <;> rfl
  · intro d st sh pos
    rcases sh with ⟨r, e, c, tl, cl, co, cp, cu⟩
    simp only [elevation_motor_controller_tick]
    split_ifs <;> rfl
  · intro d co sh
    rcases sh with ⟨r, e, c, tl, cl, cls, cp, cu⟩
    simp only [claw_motor_controller_tick]
    split_ifs <;> rfl
  · intro pv sh
    simp only [leds_controller_tick]
    split_ifs <;> rfl
  · intro sh h m s
    simp only [reporter_tick]
    split_ifs <;> rfl
  · intro b sh h
    simp [buttons_controller_step, h]
  · intro d cd sh h
    simp [color_sensor_controller_step, h]
  · intro d td sh h
    simp [touch_sensor_controller_step, h]
  · intro d st sh pos h
    simp [rotation_motor_controller_step, h]
  · intro d st sh pos h
    simp [elevation_motor_controller_step, h]
  · intro d co sh h
    simp [claw_motor_controller_step, h]
  · intro pv sh h
    simp [leds_controller_step, h]
  · intro sh h m s hc
    simp [reporter_step, hc]

/-- Witness for C5: with the close flag latched, every activity's step is
`none` at a concrete state. -/
theorem c5_close_latching_and_termination_witness :
    shClosed.close = true ∧
    buttons_controller_step noButtons shClosed = none ∧
    color_sensor_controller_step false 0 shClosed = none ∧
    touch_sensor_controller_step false 0 shClosed = none ∧
    rotation_motor_controller_step false actions_rotation.ROTATE_STOP shClosed 0 = none ∧
    elevation_motor_controller_step false actions_elevation.ELEVATE_STOP shClosed 0 = none ∧
    claw_motor_controller_step false true shClosed = none ∧
    leds_controller_step false shClosed = none ∧
    reporter_step shClosed 12 0 0 = none :=
  ⟨rfl,
   c5_close_latching_and_termination.2.2.2.2.2.2.2.2.2.1 noButtons shClosed rfl,
   c5_close_latching_and_termination.2.2.2.2.2.2.2.2.2.2.1 false 0 shClosed rfl,
   c5_close_latching_and_termination.2.2.2.2.2.2.2.2.2.2.2.1 false 0 shClosed rfl,
   c5_close_latching_and_termination.2.2.2.2.2.2.2.2.2.2.2.2.1 false
     actions_rotation.ROTATE_STOP shClosed 0 rfl,
   c5_close_latching_and_termination.2.2.2.2.2.2.2.2.2.2.2.2.2.1 false
     actions_elevation.ELEVATE_STOP shClosed 0 rfl,
   c5_close_latching_and_termination.2.2.2.2.2.2.2.2.2.2.2.2.2.2.1 false true shClosed rfl,
   c5_close_latching_and_termination.2.2.2.2.2.2.2.2.2.2.2.2.2.2.2.1 false shClosed rfl,
   c5_close_latching_and_termination.2.2.2.2.2.2.2.2.2.2.2.2.2.2.2.2 shClosed 12 0 0 rfl⟩

/-- C6: for every tick of the button sampler and every combination of
pressed keys, the published Intent satisfies: rotation is STOP when LEFT
and RIGHT agree (both or neither pressed) and the pressed direction when
exactly one is pressed; elevation is STOP when UP and DOWN agree, RISE
when only UP, LOWER when only DOWN; claw is ACTIVE exactly when CENTER is
pressed; and all three fields are written under a single acquisition of
the Intent mutex (the trace begins lock, three writes, unlock, and
acquires the Intent mutex exactly once, with no further intent write). -/
theorem c6_intent_rules_single_lock :
    ∀ b sh,
      ((buttons_controller_tick b sh).1.rotation
          = actions_rotation.ROTATE_STOP ↔ b.left = b.right) ∧
      ((buttons_controller_tick b sh).1.rotation
          = actions_rotation.ROTATE_LEFT ↔ (b.left = true ∧ b.right = false)) ∧
      ((buttons_controller_tick b sh).1.rotation
          = actions_rotation.ROTATE_RIGHT ↔ (b.left = false ∧ b.right = true)) ∧
      ((buttons_controller_tick b sh).1.elevation
          = actions_elevation.ELEVATE_STOP ↔ b.up = b.down) ∧
      ((buttons_controller_tick b sh).1.elevation
          = actions_elevation.RISE ↔ (b.up = true ∧ b.down = false)) ∧
      ((buttons_controller_tick b sh).1.elevation
          = actions_elevation.LOWER ↔ (b.up = false ∧ b.down = true)) ∧
      ((buttons_controller_tick b sh).1.claw
          = actions_claw.ACTIVE ↔ b.center = true) ∧
      (buttons_controller_tick b sh).2.take 5 =
        [Ev.lockIntent,
         Ev.writeRotationIntent (buttons_controller_tick b sh).1.rotation,
         Ev.writeElevationIntent (buttons_controller_tick b sh).1.elevation,
         Ev.writeClawIntent (buttons_controller_tick b sh).1.claw,
         Ev.unlockIntent] ∧
      (buttons_controller_tick b sh).2.count Ev.lockIntent = 1 ∧
      (((buttons_controller_tick b sh).2.drop 5).all
        fun e => !isLimitOrIntentWrite e) = true := by
  intro b sh
  rcases b with ⟨l, r, u, d, c, bk⟩
  cases l <;> cases r <;> cases u <;> cases d <;> cases c <;> cases bk <;>
    simp [buttons_controller_tick, isLimitOrIntentWrite, List.count]

/-- Helper: a rotation tick with no limit condition whose local state
already agrees with the snapshotted Intent performs only the intent
snapshot (no hardware command) and changes nothing. -/
theorem rotation_tick_of_agree (d : Bool) (sh : Shared) (p : Int)
    (h : sh.clockwise_limit_reached = false) (hp : ¬ p < TOP_LEFT_POS) :
    rotation_motor_controller_tick d sh.rotation sh p =
      (sh.rotation, sh, [Ev.lockIntent, Ev.unlockIntent]) := by
  simp only [rotation_motor_controller_tick]
  rw [if_neg (by simp [h]), if_neg hp, if_neg (by simp)]

/-- Helper: a rotation tick with no limit condition leaves the shared
state unchanged and updates the local state to the snapshotted Intent. -/
theorem rotation_tick_no_limit (d : Bool) (st : actions_rotation) (sh : Shared) (p : Int)
    (h : sh.clockwise_limit_reached = false) (hp : ¬ p < TOP_LEFT_POS) :
    (rotation_motor_controller_tick d st sh p).1 = sh.rotation ∧
    (rotation_motor_controller_tick d st sh p).2.1 = sh := by
  simp only [rotation_motor_controller_tick]
  rw [if_neg (by simp [h]), if_neg hp]
  split_ifs with hne
  · exact ⟨rfl, rfl⟩
  · exact ⟨by simpa using hne, rfl⟩

/-- Helper: a run of rotation ticks started in agreement with the Intent,
with no limit condition at any tick, performs only intent snapshots. -/
theorem rotation_run_of_agree (d : Bool) (sh : Shared)
    (h : sh.clockwise_limit_reached = false) :
    ∀ poss : List Int, (∀ p ∈ poss, ¬ p < TOP_LEFT_POS) →
      ((rotation_motor_controller_run d sh.rotation sh poss).2.2.all
        fun tr => tr == [Ev.lockIntent, Ev.unlockIntent]) = true := by
  intro poss
  induction poss with
  | nil => intro _; rfl
  | cons p rest ih =>
    intro hp
    have hp1 : ¬ p < TOP_LEFT_POS := hp p (by simp)
    have hrest : ∀ q ∈ rest, ¬ q < TOP_LEFT_POS := fun q hq => hp q (by simp [hq])
    simp only [rotation_motor_controller_run, rotation_tick_of_agree d sh p h hp1]
    simpa using ih hrest

/-- Helper: an elevation tick with no limit condition whose local state
already agrees with the snapshotted Intent performs only the intent
snapshot. -/
theorem elevation_tick_of_agree (d : Bool) (sh : Shared) (p : Int)
    (h : sh.top_limit_reached = false) (hp : ¬ p > TOP_BOTTOM_POS) :
    elevation_motor_controller_tick d sh.elevation sh p =
      (sh.elevation, sh, [Ev.lockIntent, Ev.unlockIntent]) := by
  simp only [elevation_motor_controller_tick]
  rw [if_neg (by simp [h]), if_neg hp, if_neg (by simp)]

/-- Helper: an elevation tick with no limit condition leaves the shared
state unchanged and updates the local state to the snapshotted Intent. -/
theorem elevation_tick_no_limit (d : Bool) (st : actions_elevation) (sh : Shared) (p : Int)
    (h : sh.top_limit_reached = false) (hp : ¬ p > TOP_BOTTOM_POS) :
    (elevation_motor_controller_tick d st sh p).1 = sh.elevation ∧
    (elevation_motor_controller_tick d st sh p).2.1 = sh := by
  simp only [elevation_motor_controller_tick]
  rw [if_neg (by simp [h]), if_neg hp]
  split_ifs with hne
  · exact ⟨rfl, rfl⟩
  · exact ⟨by simpa using hne, rfl⟩

/-- Helper: a run of elevation ticks started in agreement with the
Intent, with no limit condition at any tick, performs only intent
snapshots. -/
theorem elevation_run_of_agree (d : Bool) (sh : Shared)
    (h : sh.top_limit_reached = false) :
    ∀ poss : List Int, (∀ p ∈ poss, ¬ p > TOP_BOTTOM_POS) →
      ((elevation_motor_controller_run d sh.elevation sh poss).2.2.all
        fun tr => tr == [Ev.lockIntent, Ev.unlockIntent]) = true := by
  intro poss
  induction poss with
  | nil => intro _; rfl
  | cons p rest ih =>
    intro hp
    have hp1 : ¬ p > TOP_BOTTOM_POS := hp p (by simp)
    have hrest : ∀ q ∈ rest, ¬ q > TOP_BOTTOM_POS := fun q hq => hp q (by simp [hq])
    simp only [elevation_motor_controller_run, elevation_tick_of_agree d sh p h hp1]
    simpa using ih hrest

/-- C7: over a run of consecutive rotation (resp. elevation) controller
ticks in which no limit condition holds and the snapshotted Intent field
keeps its value, the duty-cycle hardware command is issued at most at the
first tick: every tick after the first issues no duty-cycle setpoint,
because the command is gated on current_action ≠ next_action and
current_action is updated to next_action at the first tick. -/
theorem c7_idempotent_direct_drive :
    (∀ devFail rotation_actual sh poss,
       sh.clockwise_limit_reached = false →
       (∀ p ∈ poss, ¬ p < TOP_LEFT_POS) →
       (((rotation_motor_controller_run devFail rotation_actual sh poss).2.2.drop 1).all
         fun tr => dutyValues MotorId.rotationMotor tr == []) = true) ∧
    (∀ devFail elevation_actual sh poss,
       sh.top_limit_reached = false →
       (∀ p ∈ poss, ¬ p > TOP_BOTTOM_POS) →
       (((elevation_motor_controller_run devFail elevation_actual sh poss).2.2.drop 1).all
         fun tr => dutyValues MotorId.elevationMotor tr == []) = true) := by
  constructor
  · intro d st sh poss h hp
    cases poss with
    | nil => rfl
    | cons p rest =>
      have hp1 : ¬ p < TOP_LEFT_POS := hp p (by simp)
      have hrest : ∀ q ∈ rest, ¬ q < TOP_LEFT_POS := fun q hq => hp q (by simp [hq])
      have h1 := rotation_tick_no_limit d st sh p h hp1
      have hagree := rotation_run_of_agree d sh h rest hrest
      simp only [rotation_motor_controller_run, h1.1, h1.2, List.drop_succ_cons,
        List.drop_zero]
      rw [List.all_eq_true] at hagree ⊢
      intro tr htr
      have := hagree tr htr
      have heq : tr = [Ev.lockIntent, Ev.unlockIntent] := by simpa using this
      subst heq
      rfl
  · intro d st sh poss h hp
    cases poss with
    | nil => rfl
    | cons p rest =>
      have hp1 : ¬ p > TOP_BOTTOM_POS := hp p (by simp)
      have hrest : ∀ q ∈ rest, ¬ q > TOP_BOTTOM_POS := fun q hq => hp q (by simp [hq])
      have h1 := elevation_tick_no_limit d st sh p h hp1
      have hagree := elevation_run_of_agree d sh h rest hrest
      simp only [elevation_motor_controller_run, h1.1, h1.2, List.drop_succ_cons,
        List.drop_zero]
      rw [List.all_eq_true] at hagree ⊢
      intro tr htr
      have := hagree tr htr
      have heq : tr = [Ev.lockIntent, Ev.unlockIntent] := by simpa using this
      subst heq
      rfl

/-- Witness for C7: holding LEFT (resp. UP) for four ticks with no limit
condition issues a duty-cycle setpoint only at the first tick. -/
theorem c7_idempotent_direct_drive_witness :
    shLeftIntent.clockwise_limit_reached = false ∧
    (∀ p ∈ [(0 : Int), -10, -20, -30], ¬ p < TOP_LEFT_POS) ∧
    (((rotation_motor_controller_run false actions_rotation.ROTATE_STOP shLeftIntent
        [(0 : Int), -10, -20, -30]).2.2.drop 1).all
      fun tr => dutyValues MotorId.rotationMotor tr == []) = true ∧
    shLeftIntent.top_limit_reached = false ∧
    (((elevation_motor_controller_run false actions_elevation.ELEVATE_STOP shLeftIntent
        [(0 : Int), -10, -20, -30]).2.2.drop 1).all
      fun tr => dutyValues MotorId.elevationMotor tr == []) = true :=
  ⟨rfl, by decide,
   c7_idempotent_direct_drive.1 false actions_rotation.ROTATE_STOP shLeftIntent
     [(0 : Int), -10, -20, -30] rfl (by decide),
   rfl,
   c7_idempotent_direct_drive.2 false actions_elevation.ELEVATE_STOP shLeftIntent
     [(0 : Int), -10, -20, -30] rfl (by decide)⟩

/-- C8 counterexample: in scenario S1 (post-calibration state, LEFT held,
no limit condition), at the first tick where the rotation controller
observes Intent.rotation = LEFT its trace contains the
`set_duty_cycle(-30)` setpoint but no run-direct (nor any other) motor
command: the claim that it issues *both* a setpoint and a run-direct
command is false.  (The motor is already in run-direct mode, left there
by the calibrator's final command, so the new setpoint takes effect
without a fresh command.) -/
theorem c8_counterexample :
    Ev.setDutyCycleSp MotorId.rotationMotor (-30) ∈
      (rotation_motor_controller_tick false actions_rotation.ROTATE_STOP shLeftIntent 0).2.2 ∧
    Ev.commandMotor MotorId.rotationMotor commands.RUN_DIRECT ∉
      (rotation_motor_controller_tick false actions_rotation.ROTATE_STOP shLeftIntent 0).2.2 := by
  refine ⟨?_, ?_⟩ <;> decide

/-- C8 amended: at the first tick where the rotation controller observes
Intent.rotation = LEFT with no limit condition, it issues exactly the
`set_duty_cycle(-30)` setpoint (and updates current_action to LEFT); no
run-direct command is issued, the motor having been left in run-direct
mode by calibration (and by every recovery exit). -/
theorem c8_amended_first_left_tick :
    ∀ devFail sh position,
      sh.rotation = actions_rotation.ROTATE_LEFT →
      sh.clockwise_limit_reached = false →
      ¬ position < TOP_LEFT_POS →
      rotation_motor_controller_tick devFail actions_rotation.ROTATE_STOP sh position =
        (actions_rotation.ROTATE_LEFT, sh,
         [Ev.lockIntent, Ev.unlockIntent, Ev.setDutyCycleSp MotorId.rotationMotor (-30)]) := by
  intro d sh pos hr h hp
  simp only [rotation_motor_controller_tick]
  rw [if_neg (by simp [h]), if_neg hp, if_pos (by simp [hr]), hr]
  rfl

/-- Witness for the amended C8 at the concrete S1 state. -/
theorem c8_amended_first_left_tick_witness :
    shLeftIntent.rotation = actions_rotation.ROTATE_LEFT ∧
    shLeftIntent.clockwise_limit_reached = false ∧
    ¬ (0 : Int) < TOP_LEFT_POS ∧
    rotation_motor_controller_tick false actions_rotation.ROTATE_STOP shLeftIntent 0 =
      (actions_rotation.ROTATE_LEFT, shLeftIntent,
       [Ev.lockIntent, Ev.unlockIntent, Ev.setDutyCycleSp MotorId.rotationMotor (-30)]) :=
  ⟨rfl, rfl, by decide,
   c8_amended_first_left_tick false shLeftIntent 0 rfl rfl (by decide)⟩

/-- C9 counterexample: the startup code (main.c up to the creation of the
periodic threads, including the three calibrators) performs no LED write
at all — in particular it does not set either LED to green — so the claim
that "the startup code has already set both LEDs to green" before the LED
reporter's first tick is false.  Startup only calls `ev3_init_led`. -/
theorem c9_counterexample :
    Ev.setLed LedSide.LEFT_LED LedColor.GREEN_LED 255 ∉ main_startup_trace ∧
    Ev.setLed LedSide.RIGHT_LED LedColor.GREEN_LED 255 ∉ main_startup_trace ∧
    (main_startup_trace.all fun e => !isSetLed e) = true := by
  refine ⟨?_, ?_, ?_⟩ <;> decide

/-- C9 amended: startup initializes the LED device (`ev3_init_led`) but
issues no LED color write; the LED reporter starts with previous = false
and, as long as CorrectionInProgress is false, writes nothing to the
LEDs, so until the first correction the LEDs keep whatever state the
hardware had at startup (green only by hardware default, not by this
program). -/
theorem c9_amended_startup_leds :
    (main_startup_trace.all fun e => !isSetLed e) = true ∧
    Ev.initLed ∈ main_startup_trace ∧
    (∀ sh, sh.correction_in_progress = false →
       leds_controller_tick false sh =
         (false, [Ev.lockCorrection, Ev.unlockCorrection])) := by
  refine ⟨by decide, by decide, ?_⟩
  intro sh h
  simp [leds_controller_tick, h]

/-- Witness for the amended C9: the LED reporter's first tick from the
initial state (no correction in progress) writes nothing. -/
theorem c9_amended_startup_leds_witness :
    initialShared.correction_in_progress = false ∧
    leds_controller_tick false initialShared =
      (false, [Ev.lockCorrection, Ev.unlockCorrection]) :=
  ⟨rfl, c9_amended_startup_leds.2.2 initialShared rfl⟩

/-- C10: a soft-limit Recovery-Absolute tick of the rotation (resp.
elevation) controller (no sensor-limit flag, encoder position < -400
resp. > 200) leaves both sensor limit flags and the whole Intent
observable unchanged — its trace writes no limit flag and no Intent
field; and in every rotation (resp. elevation) tick, the axis's own limit
flag is cleared exactly when the tick entered with that flag set, i.e.
only the Recovery-Relative branch clears it. -/
theorem c10_soft_limit_frame :
    (∀ devFail rotation_actual sh position,
       sh.clockwise_limit_reached = false → position < TOP_LEFT_POS →
       ((rotation_motor_controller_tick devFail rotation_actual sh position).2.1.clockwise_limit_reached
           = sh.clockwise_limit_reached ∧
        (rotation_motor_controller_tick devFail rotation_actual sh position).2.1.top_limit_reached
           = sh.top_limit_reached ∧
        (rotation_motor_controller_tick devFail rotation_actual sh position).2.1.rotation
           = sh.rotation ∧
        (rotation_motor_controller_tick devFail rotation_actual sh position).2.1.elevation
           = sh.elevation ∧
        (rotation_motor_controller_tick devFail rotation_actual sh position).2.1.claw
           = sh.claw ∧
        (((rotation_motor_controller_tick devFail rotation_actual sh position).2.2.all
          fun e => !isLimitOrIntentWrite e) = true))) ∧
    (∀ devFail elevation_actual sh position,
       sh.top_limit_reached = false → position > TOP_BOTTOM_POS →
       ((elevation_motor_controller_tick devFail elevation_actual sh position).2.1.clockwise_limit_reached
           = sh.clockwise_limit_reached ∧
        (elevation_motor_controller_tick devFail elevation_actual sh position).2.1.top_limit_reached
           = sh.top_limit_reached ∧
        (elevation_motor_controller_tick devFail elevation_actual sh position).2.1.rotation
           = sh.rotation ∧
        (elevation_motor_controller_tick devFail elevation_actual sh position).2.1.elevation
           = sh.elevation ∧
        (elevation_motor_controller_tick devFail elevation_actual sh position).2.1.claw
           = sh.claw ∧
        (((elevation_motor_controller_tick devFail elevation_actual sh position).2.2.all
          fun e => !isLimitOrIntentWrite e) = true))) ∧
    (∀ devFail rotation_actual sh position,
       (Ev.writeClockwiseLimit false ∈
          (rotation_motor_controller_tick devFail rotation_actual sh position).2.2 ↔
        sh.clockwise_limit_reached = true)) ∧
    (∀ devFail elevation_actual sh position,
       (Ev.writeTopLimit false ∈
          (elevation_motor_controller_tick devFail elevation_actual sh position).2.2 ↔
        sh.top_limit_reached = true)) := by
  refine ⟨?_, ?_, ?_, ?_⟩
  · intro d st sh pos h hp
    simp only [rotation_motor_controller_tick]
    rw [if_neg (by simp [h]), if_pos hp]
    exact ⟨rfl, rfl, rfl, rfl, rfl, rfl⟩
  · intro d st sh pos h hp
    simp only [elevation_motor_controller_tick]
    rw [if_neg (by simp [h]), if_pos hp]
    exact ⟨rfl, rfl, rfl, rfl, rfl, rfl⟩
  · intro d st sh pos
    rcases sh with ⟨r, e, c, tl, cl, co, cp, cu⟩
    cases cl <;>
      · simp only [rotation_motor_controller_tick]
        split_ifs <;> simp_all
  · intro d st sh pos
    rcases sh with ⟨r, e, c, tl, cl, co, cp, cu⟩
    cases tl <;>
      · simp only [elevation_motor_controller_tick]
        split_ifs <;> simp_all

/-- Witness for C10 at concrete soft-limit inputs (rotation position
-500, elevation position 300, no sensor flags set). -/
theorem c10_soft_limit_frame_witness :
    initialShared.clockwise_limit_reached = false ∧ ((-500 : Int) < TOP_LEFT_POS) ∧
    ((rotation_motor_controller_tick false actions_rotation.ROTATE_STOP initialShared
        (-500)).2.1.clockwise_limit_reached = initialShared.clockwise_limit_reached ∧
     (rotation_motor_controller_tick false actions_rotation.ROTATE_STOP initialShared
        (-500)).2.1.top_limit_reached = initialShared.top_limit_reached ∧
     (rotation_motor_controller_tick false actions_rotation.ROTATE_STOP initialShared
        (-500)).2.1.rotation = initialShared.rotation ∧
     (rotation_motor_controller_tick false actions_rotation.ROTATE_STOP initialShared
        (-500)).2.1.elevation = initialShared.elevation ∧
     (rotation_motor_controller_tick false actions_rotation.ROTATE_STOP initialShared
        (-500)).2.1.claw = initialShared.claw ∧
     (((rotation_motor_controller_tick false actions_rotation.ROTATE_STOP initialShared
        (-500)).2.2.all fun e => !isLimitOrIntentWrite e) = true)) ∧
    initialShared.top_limit_reached = false ∧ ((300 : Int) > TOP_BOTTOM_POS) ∧
    ((elevation_motor_controller_tick false actions_elevation.ELEVATE_STOP initialShared
        300).2.1.clockwise_limit_reached = initialShared.clockwise_limit_reached ∧
     (elevation_motor_controller_tick false actions_elevation.ELEVATE_STOP initialShared
        300).2.1.top_limit_reached = initialShared.top_limit_reached ∧
     (elevation_motor_controller_tick false actions_elevation.ELEVATE_STOP initialShared
        300).2.1.rotation = initialShared.rotation ∧
     (elevation_motor_controller_tick false actions_elevation.ELEVATE_STOP initialShared
        300).2.1.elevation = initialShared.elevation ∧
     (elevation_motor_controller_tick false actions_elevation.ELEVATE_STOP initialShared
        300).2.1.claw = initialShared.claw ∧
     (((elevation_motor_controller_tick false actions_elevation.ELEVATE_STOP initialShared
        300).2.2.all fun e => !isLimitOrIntentWrite e) = true)) :=
  ⟨rfl, by decide,
   c10_soft_limit_frame.1 false actions_rotation.ROTATE_STOP initialShared (-500)
     rfl (by decide),
   rfl, by decide,
   c10_soft_limit_frame.2.1 false actions_elevation.ELEVATE_STOP initialShared 300
     rfl (by decide)⟩

end RoboticArm
